import Mathlib

/-!
Verification of the JoshBank chain-of-responsibility transaction-approval
pipeline (behavioral/chain-of-responsibility/main.go), shallowly embedded.

Amounts (Go float64) are modelled as rationals: the handlers only compare
the request amount against the constants 1000, 10000 and 50000, all exactly
representable in float64, so the comparison results agree with the Go code.

Two views of the program are embedded:
- a list view, where a chain is the list of handlers reachable through the
  next pointers, and evaluation is a recursive scan (handleC);
- a heap view (Store, storeHandle, setNext), where handlers are nodes
  addressed by indices and the next field is an optional index, mirroring
  the Go pointer structure; this view threads the store and the request
  through evaluation, so that non-mutation is a theorem, not an assumption.
-/

/-- Go struct TransactionRequest (main.go lines 6-13). -/
structure TransactionRequest where
  ID : String
  CustomerID : String
  Amount : ℚ
  txnType : String
  Description : String
  Priority : String
deriving DecidableEq, Repr

/-- The four concrete handler types of the Go file: LowAmountHandler,
MediumAmountHandler, ManagerHandler, DirectorHandler. -/
inductive HandlerKind
  | low
  | medium
  | manager
  | director
deriving DecidableEq, Repr

/-- A concrete handler: one of the four Go handler types together with the
name passed to its constructor (NewLowAmountHandler(name), ...). -/
structure ChainHandler where
  kind : HandlerKind
  name : String
deriving DecidableEq, Repr

/-- The guard of each concrete Handle method:
LowAmountHandler: Amount <= 1000; MediumAmountHandler: 1000 < Amount <= 10000;
ManagerHandler: 10000 < Amount <= 50000; DirectorHandler: 50000 < Amount. -/
def matchesAmount (k : HandlerKind) (amount : ℚ) : Bool :=
  match k with
  | .low => amount ≤ 1000
  | .medium => 1000 < amount && amount ≤ 10000
  | .manager => 10000 < amount && amount ≤ 50000
  | .director => 50000 < amount

/-- One run of Handle down a linear chain. Returns the names of the handlers
consulted (every Handle call prints its name) and the name of the approving
handler, if any. Mirrors the Go bodies: a handler whose guard holds approves
and returns true at once; on a failed guard the low, medium and manager
handlers call HandleNext (which yields false when next is nil, the empty
list here), while DirectorHandler returns false outright, never consulting
a successor. -/
def handleC : List ChainHandler → TransactionRequest → List String × Option String
  | [], _ => ([], none)
  | h :: rest, req =>
    if matchesAmount h.kind req.Amount then ([h.name], some h.name)
    else if h.kind = .director then ([h.name], none)
    else
      let (tr, res) := handleC rest req
      (h.name :: tr, res)

/-- The outcome type of the spec (section 3): Approved with the name of the
handler that claimed the request, or Unhandled. -/
inductive ApprovalResult
  | Approved (handlerName : String)
  | Unhandled
deriving DecidableEq, Repr

/-- Names of the handlers consulted during one evaluation, in order. -/
def consulted (c : List ChainHandler) (req : TransactionRequest) : List String :=
  (handleC c req).1

/-- The evaluate function of the spec (section 4.1), read off the Go run:
Approved with the name of the handler that printed the Handling line and
returned true, Unhandled when the chain returned false. -/
def evalChain (c : List ChainHandler) (req : TransactionRequest) : ApprovalResult :=
  match (handleC c req).2 with
  | some n => .Approved n
  | none => .Unhandled

/-- The boolean result of the Go Handle call: true exactly when some handler
approved the request. -/
def handled (c : List ChainHandler) (req : TransactionRequest) : Bool :=
  ((handleC c req).2).isSome

/-- The reference chain of spec section 8: the four handler types in
escalation order with the band names Auto-Approval, Supervisor, Manager,
Director. -/
def refChain : List ChainHandler :=
  [⟨.low, "Auto-Approval"⟩, ⟨.medium, "Supervisor"⟩,
   ⟨.manager, "Manager"⟩, ⟨.director, "Director"⟩]

/-- A request with the given amount and fixed values for the fields the
handlers never branch on. -/
def sampleReq (a : ℚ) : TransactionRequest :=
  ⟨"TXN001", "CUST001", a, "transfer", "Payment to merchant", "low"⟩

/-- The four demo transactions built in main (main.go lines 139-144). -/
def txn1 : TransactionRequest :=
  ⟨"TXN001", "CUST001", 500, "transfer", "Payment to merchant", "low"⟩

def txn2 : TransactionRequest :=
  ⟨"TXN002", "CUST002", 5000, "transfer", "Bill payment", "medium"⟩

def txn3 : TransactionRequest :=
  ⟨"TXN003", "CUST003", 25000, "withdrawal", "Large withdrawal", "high"⟩

def txn4 : TransactionRequest :=
  ⟨"TXN004", "CUST004", 100000, "transfer", "Business transfer", "critical"⟩

/-- A chain with a deliberate gap: the low-amount handler linked directly to
the director handler, skipping the medium and manager bands. -/
def gapChain : List ChainHandler :=
  [⟨.low, "Auto-Approval"⟩, ⟨.director, "Director"⟩]

/-- A chain that places a director handler first: used to exhibit that a
director never consults its successor. -/
def dirFirstChain : List ChainHandler :=
  [⟨.director, "D"⟩, ⟨.low, "L"⟩]

-- Characterization of evaluation on the reference chain, for every amount.
lemma evalChain_refChain (req : TransactionRequest) :
    evalChain refChain req =
      if req.Amount ≤ 1000 then .Approved "Auto-Approval"
      else if req.Amount ≤ 10000 then .Approved "Supervisor"
      else if req.Amount ≤ 50000 then .Approved "Manager"
      else .Approved "Director" := by
  by_cases h1 : req.Amount ≤ 1000
  · simp [evalChain, handleC, matchesAmount, refChain, h1]
  · by_cases h2 : req.Amount ≤ 10000
    · simp [evalChain, handleC, matchesAmount, refChain, h1, h2, not_le.mp h1]
    · by_cases h3 : req.Amount ≤ 50000
      · simp [evalChain, handleC, matchesAmount, refChain, h1, h2, h3,
          not_le.mp h1, not_le.mp h2]
      · simp [evalChain, handleC, matchesAmount, refChain, h1, h2, h3,
          not_le.mp h1, not_le.mp h2, not_le.mp h3]

/-- A handler object on the Go heap: the concrete type, the name, and the
next field of the embedded BaseHandler, modelled as an optional index into
the store of handler objects. -/
structure HandlerNode where
  kind : HandlerKind
  name : String
  next : Option Nat
deriving DecidableEq, Repr

/-- The heap of handler objects; a handler pointer is an index into nodes. -/
structure Store where
  nodes : List HandlerNode
deriving DecidableEq, Repr

/-- Overwrite the next field of the node at the given index. -/
def setNextField : List HandlerNode → Nat → Option Nat → List HandlerNode
  | [], _, _ => []
  | n :: rest, 0, nxt => { n with next := nxt } :: rest
  | n :: rest, i + 1, nxt => n :: setNextField rest i nxt

/-- Go BaseHandler.SetNext (main.go lines 26-29): stores the argument in the
next field of the receiver and returns the argument. The receiver and the
argument are pointers, here indices into the store; the updated store is
returned alongside the returned pointer. -/
def setNext (s : Store) (receiver arg : Nat) : Store × Nat :=
  (⟨setNextField s.nodes receiver (some arg)⟩, arg)

/-- Go Handle on the heap model, threading the store and the request the way
the Go code passes the receiver graph and the *TransactionRequest pointer.
The fuel bounds the traversal (the Go program would not terminate on a
cyclic next graph); a run that exhausts its fuel or follows a dangling index
gives up with false. Returns the store and request as left by the run, the
names of the consulted handlers, and the boolean Handle result. -/
def storeHandle : Nat → Store → Nat → TransactionRequest →
    Store × TransactionRequest × List String × Bool
  | 0, s, _, req => (s, req, [], false)
  | fuel + 1, s, i, req =>
    match s.nodes.get? i with
    | none => (s, req, [], false)
    | some node =>
      if matchesAmount node.kind req.Amount then (s, req, [node.name], true)
      else if node.kind = .director then (s, req, [node.name], false)
      else
        match node.next with
        | none => (s, req, [node.name], false)
        | some j =>
          let (s', req', tr, r) := storeHandle fuel s j req
          (s', req', node.name :: tr, r)

/-- The chain reachable from a pointer by following next fields, as a list
of handlers, cut off by the fuel. -/
def chainFrom : Nat → Store → Option Nat → List ChainHandler
  | 0, _, _ => []
  | _, _, none => []
  | fuel + 1, s, some i =>
    match s.nodes.get? i with
    | none => []
    | some n => ⟨n.kind, n.name⟩ :: chainFrom fuel s n.next

-- Evaluation never writes to the store: every branch of storeHandle hands
-- back the store it received.
lemma storeHandle_store (fuel : Nat) (s : Store) (i : Nat)
    (req : TransactionRequest) : (storeHandle fuel s i req).1 = s := by
  induction fuel generalizing i with
  | zero => rfl
  | succ n ih =>
    simp only [storeHandle]
    cases hg : s.nodes.get? i with
    | none => rfl
    | some node =>
      by_cases hm : matchesAmount node.kind req.Amount
      · simp [hm]
      · by_cases hd : node.kind = .director
        · rw [hd] at hm
          simp [hm, hd]
        · cases hn : node.next with
          | none => simp [hm, hd, hn]
          | some j => simpa [hm, hd, hn] using ih j

-- Evaluation never writes to the request: every branch of storeHandle hands
-- back the request it received.
lemma storeHandle_request (fuel : Nat) (s : Store) (i : Nat)
    (req : TransactionRequest) : (storeHandle fuel s i req).2.1 = req := by
  induction fuel generalizing i with
  | zero => rfl
  | succ n ih =>
    simp only [storeHandle]
    cases hg : s.nodes.get? i with
    | none => rfl
    | some node =>
      by_cases hm : matchesAmount node.kind req.Amount
      · simp [hm]
      · by_cases hd : node.kind = .director
        · rw [hd] at hm
          simp [hm, hd]
        · cases hn : node.next with
          | none => simp [hm, hd, hn]
          | some j => simpa [hm, hd, hn] using ih j

-- Following no pointer yields the empty chain, for any fuel.
lemma chainFrom_none (fuel : Nat) (s : Store) : chainFrom fuel s none = [] := by
  cases fuel <;> rfl

-- The heap view and the list view agree: a run of storeHandle from a
-- pointer consults the same names and returns the same boolean as the
-- recursive scan of the chain extracted from that pointer.
lemma storeHandle_eq_handleC (fuel : Nat) (s : Store) (i : Nat)
    (req : TransactionRequest) :
    (storeHandle fuel s i req).2.2.1 = (handleC (chainFrom fuel s (some i)) req).1 ∧
    (storeHandle fuel s i req).2.2.2 = ((handleC (chainFrom fuel s (some i)) req).2).isSome := by
  induction fuel generalizing i with
  | zero => exact ⟨rfl, rfl⟩
  | succ n ih =>
    simp only [storeHandle, chainFrom]
    cases hg : s.nodes.get? i with
    | none => simp [handleC]
    | some node =>
      by_cases hm : matchesAmount node.kind req.Amount
      · simp [handleC, hm]
      · by_cases hd : node.kind = .director
        · rw [hd] at hm
          simp [handleC, hm, hd]
        · cases hn : node.next with
          | none => simp [handleC, hm, hd, hn, chainFrom_none]
          | some j => simpa [handleC, hm, hd, hn] using ih j

-- Approval on a chain is exactly a some result of handleC.
lemma evalChain_eq_approved (c : List ChainHandler) (req : TransactionRequest)
    (n : String) :
    evalChain c req = ApprovalResult.Approved n ↔ (handleC c req).2 = some n := by
  unfold evalChain
  cases h : (handleC c req).2 <;> simp [h]

/-- Modelled from the spec: the error taxonomy of section 7. The repository
source has no build function (the demo wires the chain by hand inside main),
so the builder and its error are taken from the spec contract in sections
4.1 and 7. -/
inductive ConfigurationError
  | emptyHandlerSequence
deriving DecidableEq, Repr

/-- Modelled from the spec: the pipeline of section 2, holding the ordered
sequence of handlers it owns. -/
structure EscalationPipeline where
  handlers : List ChainHandler
deriving DecidableEq, Repr

/-- Modelled from the spec: build (sections 4.1 and 7) links the handlers in
the given order and fails with ConfigurationError when the sequence is
empty; the Except result carries either the error or a whole pipeline,
never a partial one. -/
def build (hs : List ChainHandler) :
    Except ConfigurationError EscalationPipeline :=
  match hs with
  | [] => .error .emptyHandlerSequence
  | h :: t => .ok ⟨h :: t⟩

/-- C1, counterexample: the claim places the boundary amount 1000.0 in the
second band (Supervisor), but the low handler guard in the code is
Amount <= 1000.0, boundary inclusive, so the reference chain approves
1000.0 through the first band (Auto-Approval). -/
theorem c1_boundary_counterexample :
    evalChain refChain (sampleReq 1000) = ApprovalResult.Approved "Auto-Approval" ∧
    evalChain refChain (sampleReq 1000) ≠ ApprovalResult.Approved "Supervisor" := by
  decide

/-- C1, amended: the code bands are exclusive-low/inclusive-high. For every
non-negative amount the reference chain approves with exactly the name of
the band containing the amount, the bands being (-inf,1000], (1000,10000],
(10000,50000], (50000,inf); in particular 1000.0 falls to the first band. -/
theorem c1_band_names (req : TransactionRequest) (h0 : 0 ≤ req.Amount) :
    (req.Amount ≤ 1000 →
      evalChain refChain req = ApprovalResult.Approved "Auto-Approval") ∧
    (1000 < req.Amount → req.Amount ≤ 10000 →
      evalChain refChain req = ApprovalResult.Approved "Supervisor") ∧
    (10000 < req.Amount → req.Amount ≤ 50000 →
      evalChain refChain req = ApprovalResult.Approved "Manager") ∧
    (50000 < req.Amount →
      evalChain refChain req = ApprovalResult.Approved "Director") := by
  refine ⟨?_, ?_, ?_, ?_⟩
  · intro h
    rw [evalChain_refChain, if_pos h]
  · intro h h'
    rw [evalChain_refChain, if_neg (not_le.mpr h), if_pos h']
  · intro h h'
    rw [evalChain_refChain, if_neg (not_le.mpr (lt_trans (by norm_num) h)),
      if_neg (not_le.mpr h), if_pos h']
  · intro h
    rw [evalChain_refChain, if_neg (not_le.mpr (lt_trans (by norm_num) h)),
      if_neg (not_le.mpr (lt_trans (by norm_num) h)), if_neg (not_le.mpr h)]

/-- C1 witness: the amended theorem applied at the boundary amount 1000. -/
theorem c1_band_names_witness :
    0 ≤ (sampleReq 1000).Amount ∧
    evalChain refChain (sampleReq 1000) = ApprovalResult.Approved "Auto-Approval" :=
  ⟨by decide, (c1_band_names (sampleReq 1000) (by decide)).1 (by decide)⟩

/-- C2: the four demo transactions of main are each handled, with the
handler names 500 -> Auto-Approval, 5000 -> Supervisor, 25000 -> Manager,
100000 -> Director. -/
theorem c2_concrete_scenarios :
    evalChain refChain txn1 = ApprovalResult.Approved "Auto-Approval" ∧
    evalChain refChain txn2 = ApprovalResult.Approved "Supervisor" ∧
    evalChain refChain txn3 = ApprovalResult.Approved "Manager" ∧
    evalChain refChain txn4 = ApprovalResult.Approved "Director" ∧
    handled refChain txn1 = true ∧ handled refChain txn2 = true ∧
    handled refChain txn3 = true ∧ handled refChain txn4 = true := by
  decide

/-- C3, counterexample: the claim quantifies over every chain, but a
DirectorHandler returns false on a failed guard without consulting its
successor. In the chain director-then-low at amount 500 the low handler is
the first (and only) handler whose condition matches, yet evaluation
returns Unhandled and never consults it. -/
theorem c3_first_match_counterexample :
    (dirFirstChain.any fun h => matchesAmount h.kind (sampleReq 500).Amount) = true ∧
    evalChain dirFirstChain (sampleReq 500) = ApprovalResult.Unhandled ∧
    consulted dirFirstChain (sampleReq 500) = ["D"] := by
  decide

/-- C3, amended: on every chain whose director handlers sit only in the
last position, evaluation stops at the first handler whose condition
matches: that handler alone approves, and the handlers consulted are
exactly the non-matching prefix followed by the first match, so no handler
after the match is ever consulted. -/
theorem c3_first_match_wins (c : List ChainHandler) (req : TransactionRequest)
    (hdir : ∀ h ∈ c.dropLast, h.kind ≠ HandlerKind.director)
    (i : Nat) (hh : ChainHandler) (hget : c.get? i = some hh)
    (hmatch : matchesAmount hh.kind req.Amount = true)
    (hpre : ∀ g ∈ c.take i, matchesAmount g.kind req.Amount = false) :
    evalChain c req = ApprovalResult.Approved hh.name ∧
    consulted c req = (c.take i).map ChainHandler.name ++ [hh.name] := by
  induction c generalizing i with
  | nil => simp at hget
  | cons x rest ih =>
    cases i with
    | zero =>
      have hx : x = hh := by simpa using hget
      subst hx
      refine ⟨?_, ?_⟩
      · rw [evalChain_eq_approved]
        simp [handleC, hmatch]
      · simp [consulted, handleC, hmatch]
    | succ n =>
      have hrest : rest ≠ [] := by
        intro h
        subst h
        simp at hget
      have hx : matchesAmount x.kind req.Amount = false := hpre x (by simp)
      have hxd : x.kind ≠ HandlerKind.director := by
        apply hdir
        rw [List.dropLast_cons_of_ne_nil hrest]
        exact List.mem_cons_self x _
      have hstep : handleC (x :: rest) req =
          (x.name :: (handleC rest req).1, (handleC rest req).2) := by
        simp [handleC, hx, hxd]
      have hdir' : ∀ h ∈ rest.dropLast, h.kind ≠ HandlerKind.director := by
        intro h hm
        apply hdir
        rw [List.dropLast_cons_of_ne_nil hrest]
        exact List.mem_cons_of_mem x hm
      have hpre' : ∀ g ∈ rest.take n, matchesAmount g.kind req.Amount = false := by
        intro g hg
        exact hpre g (List.mem_cons_of_mem x hg)
      obtain ⟨ih1, ih2⟩ := ih hdir' n (by simpa using hget) hpre'
      refine ⟨?_, ?_⟩
      · rw [evalChain_eq_approved] at ih1 ⊢
        rw [hstep]
        exact ih1
      · unfold consulted at ih2 ⊢
        rw [hstep]
        simp [List.take, ih2]

/-- C3 witness: the amended theorem applied to the reference chain at
amount 5000, whose first match is the Supervisor handler at index 1. -/
theorem c3_first_match_wins_witness :
    (∀ h ∈ refChain.dropLast, h.kind ≠ HandlerKind.director) ∧
    matchesAmount HandlerKind.medium (sampleReq 5000).Amount = true ∧
    evalChain refChain (sampleReq 5000) = ApprovalResult.Approved "Supervisor" ∧
    consulted refChain (sampleReq 5000) = ["Auto-Approval", "Supervisor"] :=
  ⟨by decide, by decide,
    (c3_first_match_wins refChain (sampleReq 5000) (by decide) 1
      ⟨HandlerKind.medium, "Supervisor"⟩ (by decide) (by decide)
      (by decide)).1,
    by
      have h := (c3_first_match_wins refChain (sampleReq 5000) (by decide) 1
        ⟨HandlerKind.medium, "Supervisor"⟩ (by decide) (by decide)
        (by decide)).2
      simpa using h⟩

/-- C4: on the reference chain, whose last band is unbounded above, every
request with a non-negative amount is Approved; the Unhandled outcome is
unreachable, and evaluation is a total function that always produces one of
the two ApprovalResult constructors, never a failure. -/
theorem c4_unhandled_unreachable (req : TransactionRequest)
    (h0 : 0 ≤ req.Amount) :
    (∃ n, evalChain refChain req = ApprovalResult.Approved n) ∧
    evalChain refChain req ≠ ApprovalResult.Unhandled := by
  have h : ∃ n, evalChain refChain req = ApprovalResult.Approved n := by
    rw [evalChain_refChain]
    split_ifs <;> exact ⟨_, rfl⟩
  obtain ⟨n, hn⟩ := h
  exact ⟨⟨n, hn⟩, by simp [hn]⟩

/-- C4 witness: the theorem applied at amount 0. -/
theorem c4_unhandled_unreachable_witness :
    0 ≤ (sampleReq 0).Amount ∧
    (∃ n, evalChain refChain (sampleReq 0) = ApprovalResult.Approved n) ∧
    evalChain refChain (sampleReq 0) ≠ ApprovalResult.Unhandled :=
  ⟨by decide, c4_unhandled_unreachable (sampleReq 0) (by decide)⟩

/-- C5, counterexample: the claim says a negative amount is Unhandled on the
reference chain, but the low handler guard Amount <= 1000.0 has no lower
bound, so the amount -5 is Approved by the first handler. -/
theorem c5_negative_counterexample :
    (sampleReq (-5)).Amount < 0 ∧
    evalChain refChain (sampleReq (-5)) = ApprovalResult.Approved "Auto-Approval" ∧
    evalChain refChain (sampleReq (-5)) ≠ ApprovalResult.Unhandled := by
  decide

/-- C5, amended: on the reference chain every request with a negative
amount is Approved by the first handler (Auto-Approval), because the low
handler guard Amount <= 1000.0 places no lower bound on the amount. -/
theorem c5_negative_approved (req : TransactionRequest)
    (h : req.Amount < 0) :
    evalChain refChain req = ApprovalResult.Approved "Auto-Approval" := by
  rw [evalChain_refChain, if_pos (le_of_lt (lt_of_lt_of_le h (by norm_num)))]

/-- C5 witness: the amended theorem applied at amount -5. -/
theorem c5_negative_approved_witness :
    (sampleReq (-5)).Amount < 0 ∧
    evalChain refChain (sampleReq (-5)) = ApprovalResult.Approved "Auto-Approval" :=
  ⟨by decide, c5_negative_approved (sampleReq (-5)) (by decide)⟩

/-- C6: on the chain with a deliberate gap (the low-amount handler linked
directly to the director handler), every amount strictly above 1000 and at
most 50000 falls in the gap and is Unhandled: the low guard fails, the
director guard fails, and the end of the chain returns false. -/
theorem c6_gap_unhandled (req : TransactionRequest)
    (h1 : 1000 < req.Amount) (h2 : req.Amount ≤ 50000) :
    evalChain gapChain req = ApprovalResult.Unhandled := by
  simp [evalChain, handleC, gapChain, matchesAmount, not_le.mpr h1,
    not_lt.mpr h2]

/-- C6 witness: the theorem applied at the amount 1500 named by the spec. -/
theorem c6_gap_unhandled_witness :
    1000 < (sampleReq 1500).Amount ∧ (sampleReq 1500).Amount ≤ 50000 ∧
    evalChain gapChain (sampleReq 1500) = ApprovalResult.Unhandled :=
  ⟨by decide, by decide,
    c6_gap_unhandled (sampleReq 1500) (by decide) (by decide)⟩

/-- C7: building a pipeline from the empty handler sequence fails with
ConfigurationError; the Except value returned to the caller of build
carries the error and no pipeline, partial or otherwise. -/
theorem c7_empty_build_fails :
    build [] = Except.error ConfigurationError.emptyHandlerSequence := by
  rfl

/-- C8: evaluation is deterministic and leaves the pipeline state
unchanged: a run of Handle hands back exactly the store it was given, and a
second run started from the store and request left by the first reproduces
the first run in full (same store, same request, same consulted names, same
boolean result). -/
theorem c8_evaluate_deterministic (fuel : Nat) (s : Store) (i : Nat)
    (req : TransactionRequest) :
    (storeHandle fuel s i req).1 = s ∧
    storeHandle fuel (storeHandle fuel s i req).1 i
        (storeHandle fuel s i req).2.1 =
      storeHandle fuel s i req := by
  refine ⟨storeHandle_store fuel s i req, ?_⟩
  rw [storeHandle_store fuel s i req, storeHandle_request fuel s i req]

/-- C9: no handler mutates the request: after a run of Handle over any
store, from any start handler and with any fuel, every field of the
TransactionRequest handed back is the one the caller constructed. -/
theorem c9_request_not_mutated (fuel : Nat) (s : Store) (i : Nat)
    (req : TransactionRequest) :
    ((storeHandle fuel s i req).2.1).ID = req.ID ∧
    ((storeHandle fuel s i req).2.1).CustomerID = req.CustomerID ∧
    ((storeHandle fuel s i req).2.1).Amount = req.Amount ∧
    ((storeHandle fuel s i req).2.1).txnType = req.txnType ∧
    ((storeHandle fuel s i req).2.1).Description = req.Description ∧
    ((storeHandle fuel s i req).2.1).Priority = req.Priority := by
  rw [storeHandle_request fuel s i req]
  exact ⟨rfl, rfl, rfl, rfl, rfl, rfl⟩

/-- C10: SetNext writes its argument into the next field of the receiver
and returns the argument, so the chained calls
a.SetNext(b).SetNext(c).SetNext(d) on four freshly constructed handlers
(next nil, as the constructors build them) wire exactly the chain
a -> b -> c -> d, whatever the four kinds and names are. -/
theorem c10_setNext_chain (ka kb kc kd : HandlerKind) (na nb nc nd : String) :
    let s0 : Store := ⟨[⟨ka, na, none⟩, ⟨kb, nb, none⟩, ⟨kc, nc, none⟩,
      ⟨kd, nd, none⟩]⟩
    let p1 := setNext s0 0 1
    let p2 := setNext p1.1 p1.2 2
    let p3 := setNext p2.1 p2.2 3
    p1.2 = 1 ∧ p2.2 = 2 ∧ p3.2 = 3 ∧
    p3.1.nodes = [⟨ka, na, some 1⟩, ⟨kb, nb, some 2⟩, ⟨kc, nc, some 3⟩,
      ⟨kd, nd, none⟩] ∧
    chainFrom 4 p3.1 (some 0) = [⟨ka, na⟩, ⟨kb, nb⟩, ⟨kc, nc⟩, ⟨kd, nd⟩] :=
  ⟨rfl, rfl, rfl, rfl, rfl⟩
